import Mathlib

/-!
# Verification of the `use-contact-form` submission hook and template utilities

Shallow embedding of the library core:

* `useContactForm` (the submission orchestrator `sendEmail` / `makeRequest`,
  `reset`, `cancel` from `src/useContactForm.ts`),
* the transport utilities and the built-in validator (`src/utils.ts`:
  `createTimeoutPromise`, `parseErrorResponse`, `createNetworkError`,
  `isValidEmail`, `validateContactForm`, `getExponentialBackoff`),
* the template renderer (`src/templates.ts`: `renderHtmlTemplate`, `escapeHtml`).

Modelling conventions:

* JS objects holding an error become the structure `JsError`; an absent
  property is `none` (for `status`, `code`, `errors`) or `""` (for `name` and
  `message`, where the code only ever tests truthiness or compares to a
  constant, and absent/empty behave identically in every such test).
* A JS object literal's insertion-ordered string-keyed mapping becomes an
  association list `List (String × List String)`.
* The asynchronous network boundary is abstracted by a `transport` function
  giving, for each attempt index, the settled outcome of
  `Promise.race([fetch(...), createTimeoutPromise(timeout)])`:
  either the resolved `Response` (already split into ok / non-ok and, for the
  ok case, the body parsed per content type exactly as lines 114–121 of
  `useContactForm.ts` do) or the rejection value (a thrown `Error`, which
  covers network failures, the timeout error `Error('Request timeout')`
  from `createTimeoutPromise`, and `AbortError` aborts).
* Each `new AbortController()` allocation is given a fresh numeric identity
  so that claims about handle reuse across retries are expressible; the
  orchestrator allocates ids in order starting from the `nextId` argument.
-/

namespace UseContactForm

/-- A JS error-ish value: either a thrown `Error` (then `name`, `message` are
its properties and `code`/`status`/`errors` are absent) or a
`ContactFormError` object (`{message, code?, status?, errors?}`, whose `name`
property is absent, modelled `""`). -/
structure JsError where
  name : String
  message : String
  code : Option String
  status : Option Nat
  errors : Option (List (String × List String))
deriving DecidableEq, Repr

/-- JS truthiness of an optional numeric `status` property:
`undefined` and `0` are falsy. -/
def truthyStatus : Option Nat → Bool
  | none => false
  | some s => s != 0

/-- `utils.ts` `createNetworkError`: wraps a thrown error into
`{message: error.message || 'Network error occurred', code: 'NETWORK_ERROR'}`. -/
def createNetworkError (e : JsError) : JsError :=
  { name := ""
    message := if e.message = "" then "Network error occurred" else e.message
    code := some "NETWORK_ERROR"
    status := none
    errors := none }

/-- The fields the non-2xx response body parse can produce
(`errorData` in `utils.ts` `parseErrorResponse`). -/
structure ErrorBody where
  message : Option String
  code : Option String
  errors : Option (List (String × List String))
deriving DecidableEq, Repr

/-- How the non-2xx response body reads: JSON content type with a successfully
parsed body, JSON content type whose parse throws, or any other content type
(raw text). -/
inductive RespBody where
  | jsonOk (b : ErrorBody)
  | jsonFail
  | text (t : String)
deriving DecidableEq, Repr

/-- `utils.ts` `parseErrorResponse`: builds the `ContactFormError` for a
non-2xx response; `errorData.message || fallback` (empty string is falsy). -/
def parseErrorResponse (status : Nat) (body : RespBody) : JsError :=
  let errorData : ErrorBody :=
    match body with
    | .jsonOk d => d
    | .jsonFail => { message := some "An error occurred", code := none, errors := none }
    | .text t => { message := some t, code := none, errors := none }
  { name := ""
    message :=
      match errorData.message with
      | some m => if m = "" then s!"Request failed with status {status}" else m
      | none => s!"Request failed with status {status}"
    code := errorData.code
    status := some status
    errors := errorData.errors }

/-- Settled outcome of one raced network attempt (see the module docstring). -/
inductive AttemptOutcome where
  | ok (parsed : String)
  | httpError (status : Nat) (body : RespBody)
  | thrown (e : JsError)
deriving DecidableEq, Repr

/-- The non-retrying tail of the `catch` block of `makeRequest`
(`useContactForm.ts` lines 124–142 with the retry branch removed; it is taken
exactly when the retry condition fails): `AbortError` is normalized to
`createNetworkError(Error('Request cancelled'))`; an error with a truthy
`message` is rethrown as-is ("if it's already a ContactFormError" — the check
`error.message && typeof error === 'object'` also matches every plain `Error`
with a nonempty message, since thrown non-objects such as strings have no
`message` property); otherwise it is wrapped by `createNetworkError`. -/
def catchNoRetry (e : JsError) : JsError :=
  if e.name = "AbortError" then
    createNetworkError
      { name := "Error", message := "Request cancelled"
        code := none, status := none, errors := none }
  else if e.message ≠ "" then e
  else createNetworkError e

/-- Retry condition for a non-ok response of status `status`
(`useContactForm.ts` line 105), combined with the `catch`-block retry
condition (line 131) that the thrown `parseErrorResponse` error reaches when
the first condition fails: its `status` property is `some status`, its `name`
is absent, so the catch retries it exactly when `attempt < retries` and
`status` is falsy (i.e. `0`). -/
def shouldRetryHttp (retries attempt status : Nat) (err : JsError) : Bool :=
  (500 ≤ status && attempt < retries) ||
    (err.name != "AbortError" && attempt < retries && !truthyStatus err.status)

/-- Retry condition of the `catch` block (`useContactForm.ts` lines 126–135)
for a thrown error: not an abort, budget left, no truthy `status` property. -/
def shouldRetryThrown (retries attempt : Nat) (e : JsError) : Bool :=
  e.name != "AbortError" && attempt < retries && !truthyStatus e.status

/-- The result of an attempt at which no retry fires
(`useContactForm.ts`: the non-retrying paths of the `try`/`catch`). -/
def attemptTerminal (outcome : AttemptOutcome) (cid : Nat) :
    Except JsError String × List Nat :=
  match outcome with
  | .ok parsed => (.ok parsed, [cid])
  | .httpError status body => (.error (catchNoRetry (parseErrorResponse status body)), [cid])
  | .thrown e => (.error (catchNoRetry e), [cid])

/-- `makeRequest` recursion, structurally on an explicit `fuel` that the
wrapper `makeRequest` instantiates with `retries - attempt`. Both retry
conditions require `attempt < retries`, so with that instantiation `fuel = 0`
implies `attempt ≥ retries` and no retry can fire: the `fuel = 0` case is the
no-retry evaluation of the same attempt (`makeRequest_eq` below proves the
wrapper satisfies the source's recursion verbatim). The second component
lists the identities of the `AbortController`s allocated, one per attempt, in
order — its length is the number of transport invocations. -/
def makeRequestGo {TData : Type} (retries : Nat) (transport : TData → Nat → AttemptOutcome)
    (data : TData) : Nat → Nat → Nat → Except JsError String × List Nat
  | 0, attempt, nextId => attemptTerminal (transport data attempt) nextId
  | fuel + 1, attempt, nextId =>
    match transport data attempt with
    | .ok parsed => (.ok parsed, [nextId])
    | .httpError status body =>
      let err := parseErrorResponse status body
      if shouldRetryHttp retries attempt status err then
        let r := makeRequestGo retries transport data fuel (attempt + 1) (nextId + 1)
        (r.1, nextId :: r.2)
      else (.error (catchNoRetry err), [nextId])
    | .thrown e =>
      if shouldRetryThrown retries attempt e then
        let r := makeRequestGo retries transport data fuel (attempt + 1) (nextId + 1)
        (r.1, nextId :: r.2)
      else (.error (catchNoRetry e), [nextId])

/-- `useContactForm.ts` `makeRequest(data, attempt)`: performs one raced
network attempt and retries per the source's conditions. Allocates controller
ids from `nextId` on; returns the settled result and the allocated ids. -/
def makeRequest {TData : Type} (retries : Nat) (transport : TData → Nat → AttemptOutcome)
    (data : TData) (attempt nextId : Nat) : Except JsError String × List Nat :=
  makeRequestGo retries transport data (retries - attempt) attempt nextId

/-- The wrapper satisfies the source's recursion: each call races one attempt,
and on a retry condition recurses at `attempt + 1` with a fresh controller. -/
theorem makeRequest_eq {TData : Type} (retries : Nat)
    (transport : TData → Nat → AttemptOutcome) (data : TData) (attempt nextId : Nat) :
    makeRequest retries transport data attempt nextId =
      match transport data attempt with
      | .ok parsed => (.ok parsed, [nextId])
      | .httpError status body =>
        let err := parseErrorResponse status body
        if shouldRetryHttp retries attempt status err then
          let r := makeRequest retries transport data (attempt + 1) (nextId + 1)
          (r.1, nextId :: r.2)
        else (.error (catchNoRetry err), [nextId])
      | .thrown e =>
        if shouldRetryThrown retries attempt e then
          let r := makeRequest retries transport data (attempt + 1) (nextId + 1)
          (r.1, nextId :: r.2)
        else (.error (catchNoRetry e), [nextId]) := by
  unfold makeRequest
  rcases h : retries - attempt with _ | fuel
  · have hge : retries ≤ attempt := Nat.sub_eq_zero_iff_le.mp h
    have hlt : (attempt < retries : Bool) = false := by
      simp [decide_eq_false_iff_not]
      omega
    simp only [makeRequestGo, attemptTerminal]
    cases transport data attempt with
    | ok parsed => rfl
    | httpError status body =>
      simp [shouldRetryHttp, hlt]
    | thrown e =>
      simp [shouldRetryThrown, hlt]
  · have h1 : retries - (attempt + 1) = fuel := by omega
    simp only [makeRequestGo, h1]

/-- The hook state (`ContactFormState` in `types.ts`): `{loading, error, data, success}`. -/
structure ContactFormState where
  loading : Bool
  error : Option JsError
  data : Option String
  success : Bool
deriving DecidableEq, Repr

/-- The `useState` initializer of `useContactForm` (lines 48–53). -/
def initialState : ContactFormState :=
  { loading := false, error := none, data := none, success := false }

/-- The state written by `reset()` (lines 60–67). -/
def resetState : ContactFormState :=
  { loading := false, error := none, data := none, success := false }

/-- `ValidationResult` from `types.ts`: `{valid, errors?}`; the `errors`
object is an insertion-ordered field → message-list mapping. -/
structure ValidationResult where
  valid : Bool
  errors : Option (List (String × List String))
deriving DecidableEq, Repr

/-- The `UseContactFormOptions` fields that influence the modelled behavior
(`endpoint`/`method`/`headers`/`timeout` only shape the raced `fetch` call,
which the `transport` abstraction already settles; `retryDelay` only sizes
the awaited backoff pause; callbacks are recorded in the outcome). -/
structure HookConfig (TData : Type) where
  retries : Nat
  validate : Option (TData → ValidationResult)
  transformData : Option (TData → TData)

deriving instance DecidableEq for Except

/-- Everything one `sendEmail(data)` call observably does: the states
published via `setState` in order, the settled promise result, the
`onSuccess`/`onError` invocations in order, and the identities of the
`AbortController`s allocated by the attempt chain (one per transport
invocation, so `controllerIds.length` counts the network attempts). -/
structure SendOutcome where
  states : List ContactFormState
  result : Except JsError String
  onSuccessCalls : List String
  onErrorCalls : List JsError
  controllerIds : List Nat
deriving DecidableEq, Repr

/-- `const transformedData = transformData ? transformData(data) : data`
(`useContactForm.ts` line 176). -/
def applyTransform {TData : Type} (cfg : HookConfig TData) (data : TData) : TData :=
  match cfg.transformData with
  | some t => t data
  | none => data

/-- The `setState` argument of `useContactForm.ts` lines 178–183. -/
def loadingState : ContactFormState :=
  { loading := true, error := none, data := none, success := false }

/-- The `setState` argument of `useContactForm.ts` lines 188–193. -/
def successState (responseData : String) : ContactFormState :=
  { loading := false, error := none, data := some responseData, success := true }

/-- The `setState` argument of `useContactForm.ts` lines 164–169 and 200–205. -/
def failedState (e : JsError) : ContactFormState :=
  { loading := false, error := some e, data := none, success := false }

/-- `sendEmail` after the validation gate (`useContactForm.ts` lines 175–209):
apply `transformData` if configured, publish the loading state, run the
attempt chain, publish and settle with its outcome. -/
def sendEmailCore {TData : Type} (cfg : HookConfig TData)
    (transport : TData → Nat → AttemptOutcome) (data : TData) : SendOutcome :=
  let transformedData := applyTransform cfg data
  match makeRequest cfg.retries transport transformedData 0 0 with
  | (.ok responseData, ids) =>
    { states := [loadingState, successState responseData]
      result := .ok responseData
      onSuccessCalls := [responseData]
      onErrorCalls := []
      controllerIds := ids }
  | (.error e, ids) =>
    { states := [loadingState, failedState e]
      result := .error e
      onSuccessCalls := []
      onErrorCalls := [e]
      controllerIds := ids }

/-- `useContactForm.ts` `sendEmail(data)` (lines 153–212): if a validator is
configured and rejects the data, synthesize the `VALIDATION_ERROR`, publish
the failed state, invoke `onError`, and reject without any network attempt;
otherwise proceed to the attempt chain. -/
def sendEmail {TData : Type} (cfg : HookConfig TData)
    (transport : TData → Nat → AttemptOutcome) (data : TData) : SendOutcome :=
  match cfg.validate with
  | some validate =>
    let validationResult := validate data
    if !validationResult.valid then
      let err : JsError :=
        { name := "", message := "Validation failed", code := some "VALIDATION_ERROR"
          status := none, errors := validationResult.errors }
      { states := [failedState err]
        result := .error err
        onSuccessCalls := []
        onErrorCalls := [err]
        controllerIds := [] }
    else sendEmailCore cfg transport data
  | none => sendEmailCore cfg transport data

/-- `String.prototype.trim`, modelled on the character list
(ASCII whitespace; the inputs at issue contain no exotic Unicode spaces). -/
def jsTrim (s : String) : String :=
  ⟨((s.data.dropWhile Char.isWhitespace).reverse.dropWhile Char.isWhitespace).reverse⟩

/-- The JS truthy-or-blank test `!x || x.trim().length === 0` used for the
required fields of `validateContactForm` (an absent property is `none`). -/
def requiredMissing : Option String → Bool
  | none => true
  | some s => s == "" || jsTrim s == ""

/-- A character admitted by the regex class `[^\s@]`. -/
def emailChunkChar (c : Char) : Bool := !c.isWhitespace && c != '@'

/-- `utils.ts` `isValidEmail`: the test of `/^[^\s@]+@[^\s@]+\.[^\s@]+$/`.
The regex language is exactly the strings `x ++ "@" ++ y` where `x` is a
nonempty run of `[^\s@]` characters and `y` decomposes as `a ++ "." ++ b`
with `a`, `b` nonempty runs of `[^\s@]` characters. Since `x` cannot contain
`@`, the separator is the first `@` of the string; since `.` itself lies in
`[^\s@]`, such a decomposition of `y` exists exactly when `y` consists of
`[^\s@]` characters and its interior (all but first and last character)
contains a dot. -/
def isValidEmail (s : String) : Bool :=
  let cs := s.data
  let x := cs.takeWhile (fun c => c != '@')
  match cs.dropWhile (fun c => c != '@') with
  | '@' :: y =>
    !x.isEmpty && x.all emailChunkChar &&
      !y.isEmpty && y.all emailChunkChar &&
      ((y.drop 1).dropLast.contains '.')
  | _ => false

/-- The shape of the data `validateContactForm` inspects
(`{name?, email?, message?}`; an absent or non-string extra key is ignored
by the source and so not modelled). -/
structure ContactFormInput where
  name : Option String
  email : Option String
  message : Option String
deriving DecidableEq, Repr

/-- `utils.ts` `validateContactForm`: one message list per invalid field,
inserted in source order name, email, message; `valid` iff no entry. -/
def validateContactForm (data : ContactFormInput) : ValidationResult :=
  let nameErrors :=
    if requiredMissing data.name then [("name", ["Name is required"])] else []
  let emailErrors :=
    if requiredMissing data.email then [("email", ["Email is required"])]
    else if !isValidEmail (data.email.getD "") then [("email", ["Email is invalid"])]
    else []
  let messageErrors :=
    if requiredMissing data.message then [("message", ["Message is required"])] else []
  let errors := nameErrors ++ emailErrors ++ messageErrors
  { valid := errors.length == 0
    errors := if errors.length > 0 then some errors else none }

/-- `utils.ts` `getExponentialBackoff(attempt, baseDelay) =
baseDelay * Math.pow(2, attempt)`. JS numbers are IEEE doubles; on the
dyadic values at issue (integer bases, small exponents of either sign) the
double computation is exact, so the model uses exact rationals. -/
def getExponentialBackoff (attempt : Int) (baseDelay : ℚ) : ℚ :=
  baseDelay * (2 : ℚ) ^ attempt

/-- JS `String.prototype.replace` with a global single-character pattern:
every occurrence of `c` becomes `rep`. -/
def jsReplaceChar (c : Char) (rep : String) (s : String) : String :=
  ⟨s.data.flatMap fun ch => if ch = c then rep.data else [ch]⟩

/-- `templates.ts` `escapeHtml`: the five chained global replaces, in source
order `&`, `<`, `>`, `"`, `'`. -/
def escapeHtml (input : String) : String :=
  jsReplaceChar '\'' "&#39;"
    (jsReplaceChar '"' "&quot;"
      (jsReplaceChar '>' "&gt;"
        (jsReplaceChar '<' "&lt;"
          (jsReplaceChar '&' "&amp;" input))))

/-- `templates.ts` `TemplateTheme`. -/
inductive TemplateTheme where
  | minimal
  | branded
  | dark
deriving DecidableEq, Repr

/-- `templates.ts` `TemplateOptions` (every field optional). -/
structure TemplateOptions where
  theme : Option TemplateTheme
  brandColor : Option String
  logoUrl : Option String
  footerText : Option String
deriving DecidableEq, Repr

/-- The `{}` default for the `options` parameter of `renderHtmlTemplate`. -/
def defaultTemplateOptions : TemplateOptions :=
  { theme := none, brandColor := none, logoUrl := none, footerText := none }

/-- The destructured fields of the `data` argument of the template renderers
(`const { name, email, message, subject, phone } = data`). -/
structure TemplateData where
  name : Option String
  email : Option String
  message : Option String
  subject : Option String
  phone : Option String
deriving DecidableEq, Repr

/-- The per-theme `baseStyles` record of `renderHtmlTemplate`. -/
structure BaseStyles where
  bg : String
  text : String
  panel : String
  border : String
deriving DecidableEq, Repr

/-- The local `field` helper of `renderHtmlTemplate` (lines 61–64): a labeled
row when the value is truthy, empty otherwise; label and value are escaped. -/
def fieldRow (label : String) (value : Option String) : String :=
  match value with
  | some v =>
    if v != "" then
      let l := escapeHtml label
      let w := escapeHtml v
      s!"<p style=\"margin:8px 0;\"><strong>{l}:</strong> {w}</p>"
    else ""
  | none => ""

/-- `templates.ts` `renderHtmlTemplate`: the template literal of lines 76–96
with its interpolations. The caller-supplied data fields and the footer text
pass through `escapeHtml`; `brand` (from `options.brandColor`) and the
`options.logoUrl` of the logo block are interpolated raw, as in the source. -/
def renderHtmlTemplate (data : TemplateData) (options : TemplateOptions) : String :=
  let theme := options.theme.getD .minimal
  let brand := options.brandColor.getD "#4F46E5"
  let footerText := options.footerText.getD "Sent via use-contact-form"
  let logo :=
    match options.logoUrl with
    | some u =>
      if u != "" then
        s!"<div style=\"text-align:center;margin-bottom:16px;\"><img src=\"{u}\" alt=\"Logo\" style=\"max-height:40px\"/></div>"
      else ""
    | none => ""
  let baseStyles : BaseStyles :=
    match theme with
    | .minimal => { bg := "#ffffff", text := "#111827", panel := "#f9fafb", border := "#e5e7eb" }
    | .branded => { bg := "#ffffff", text := "#111827", panel := "#ffffff", border := brand }
    | .dark => { bg := "#0b0f17", text := "#e5e7eb", panel := "#111827", border := "#374151" }
  let defaultHeading :=
    s!"<h2 style=\"margin:0 0 8px 0;color:{brand};font-weight:600;\">New Contact Form Submission</h2>"
  let subjectBlock :=
    match data.subject with
    | some s =>
      if s != "" then
        let es := escapeHtml s
        s!"<h2 style=\"margin:0 0 8px 0;color:{brand};font-weight:600;\">{es}</h2>"
      else defaultHeading
    | none => defaultHeading
  let panel := baseStyles.panel
  let msg := escapeHtml (data.message.getD "")
  let messageBlock :=
    s!"<div style=\"background:{panel};padding:16px;border-left:4px solid {brand};white-space:pre-wrap;border-radius:4px;\">{msg}</div>"
  let bg := baseStyles.bg
  let textColor := baseStyles.text
  let borderColor := baseStyles.border
  let innerBg := if theme = .branded then "#ffffff" else baseStyles.panel
  let nameRow := fieldRow "Name" data.name
  let emailRow := fieldRow "Email" data.email
  let phoneRow := fieldRow "Phone" data.phone
  let footColor := if theme = .dark then "#9ca3af" else "#6b7280"
  let foot := escapeHtml footerText
  s!"<!doctype html>
<html>
  <body style=\"margin:0;padding:24px;background:{bg};color:{textColor};font-family:system-ui,-apple-system,Segoe UI,Roboto,Ubuntu,Cantarell,Noto Sans,sans-serif;\">
    <div style=\"max-width:640px;margin:0 auto;\">
      {logo}
      {subjectBlock}
      <div style=\"border:1px solid {borderColor};border-radius:8px;padding:16px;margin-top:12px;background:{innerBg};\">
        {nameRow}
        {emailRow}
        {phoneRow}
        <div style=\"margin-top:16px;\">
          <h3 style=\"margin:0 0 8px 0;\">Message</h3>
          {messageBlock}
        </div>
      </div>
      <p style=\"margin-top:24px;font-size:12px;color:{footColor};\">{foot}</p>
    </div>
  </body>
</html>"

/-- `pat` occurs as a contiguous run of `hay`. -/
def containsSub (pat : List Char) : List Char → Bool
  | [] => pat.isEmpty
  | c :: rest => pat.isPrefixOf (c :: rest) || containsSub pat rest

/-- `pat` occurs as a substring of `s` (JS `String.prototype.includes`). -/
def hasSubstr (pat s : String) : Bool := containsSub pat.data s.data


theorem makeRequestGo_ids_ne_nil {TData : Type} (retries : Nat)
    (transport : TData → Nat → AttemptOutcome) (data : TData) :
    ∀ (fuel attempt nextId : Nat),
      (makeRequestGo retries transport data fuel attempt nextId).2 ≠ [] := by
  intro fuel
  induction fuel with
  | zero =>
    intro attempt nextId
    rcases h : transport data attempt <;>
      simp [makeRequestGo, attemptTerminal, h]
  | succ fuel ih =>
    intro attempt nextId
    rcases h : transport data attempt with parsed | ⟨status, body⟩ | e <;>
      simp only [makeRequestGo, h]
    · simp
    · split <;> simp
    · split <;> simp

theorem makeRequest_ids_ne_nil {TData : Type} (retries : Nat)
    (transport : TData → Nat → AttemptOutcome) (data : TData) (attempt nextId : Nat) :
    (makeRequest retries transport data attempt nextId).2 ≠ [] :=
  makeRequestGo_ids_ne_nil retries transport data _ attempt nextId

theorem makeRequestGo_ids_mem_ge {TData : Type} (retries : Nat)
    (transport : TData → Nat → AttemptOutcome) (data : TData) :
    ∀ (fuel attempt nextId x : Nat),
      x ∈ (makeRequestGo retries transport data fuel attempt nextId).2 → nextId ≤ x := by
  intro fuel
  induction fuel with
  | zero =>
    intro attempt nextId x hx
    rcases h : transport data attempt with parsed | ⟨status, body⟩ | e <;>
      simp only [makeRequestGo, attemptTerminal, h, List.mem_singleton] at hx <;>
      omega
  | succ fuel ih =>
    intro attempt nextId x hx
    rcases h : transport data attempt with parsed | ⟨status, body⟩ | e <;>
      simp only [makeRequestGo, h] at hx
    · simp at hx; omega
    · revert hx
      split <;> intro hx
      · rcases List.mem_cons.mp hx with h1 | h1
        · omega
        · have := ih (attempt + 1) (nextId + 1) x h1
          omega
      · simp at hx; omega
    · revert hx
      split <;> intro hx
      · rcases List.mem_cons.mp hx with h1 | h1
        · omega
        · have := ih (attempt + 1) (nextId + 1) x h1
          omega
      · simp at hx; omega

theorem makeRequestGo_ids_chain {TData : Type} (retries : Nat)
    (transport : TData → Nat → AttemptOutcome) (data : TData) :
    ∀ (fuel attempt nextId : Nat),
      List.Chain' (fun a b => a < b) (makeRequestGo retries transport data fuel attempt nextId).2 := by
  intro fuel
  induction fuel with
  | zero =>
    intro attempt nextId
    rcases h : transport data attempt <;>
      simp [makeRequestGo, attemptTerminal, h]
  | succ fuel ih =>
    intro attempt nextId
    rcases h : transport data attempt with parsed | ⟨status, body⟩ | e <;>
      simp only [makeRequestGo, h]
    · simp
    · split
      · refine List.chain'_cons'.mpr ⟨?_, ih (attempt + 1) (nextId + 1)⟩
        intro b hb
        have hm := List.mem_of_mem_head? hb
        have := makeRequestGo_ids_mem_ge retries transport data fuel (attempt + 1) (nextId + 1) b hm
        omega
      · simp
    · split
      · refine List.chain'_cons'.mpr ⟨?_, ih (attempt + 1) (nextId + 1)⟩
        intro b hb
        have hm := List.mem_of_mem_head? hb
        have := makeRequestGo_ids_mem_ge retries transport data fuel (attempt + 1) (nextId + 1) b hm
        omega
      · simp



/-- Fixture: a transport that fails with a (statusless) network error on the
first attempt and succeeds on the retry. -/
def retryOnceTransport : Unit → Nat → AttemptOutcome := fun _ n =>
  if n = 0 then .thrown { name := "Error", message := "Network failure", code := none, status := none, errors := none }
  else .ok "sent"

/-- Counterexample to C8 as stated: in a chain with budget 1 whose first
attempt fails with a retriable network error, the retry allocates a fresh
`AbortController` — the two attempts use controllers 0 and 1, so the
sequence of handles of the chain is not constant. -/
theorem spec_C8_counterexample :
    makeRequest 1 retryOnceTransport () 0 0 = (.ok "sent", [0, 1]) ∧
    ¬ List.Chain' Eq (makeRequest 1 retryOnceTransport () 0 0).2 := by
  constructor
  · rfl
  · intro h
    rw [show makeRequest 1 retryOnceTransport () 0 0 = (.ok "sent", [0, 1]) from rfl] at h
    exact absurd (List.chain'_cons.mp h).1 (by decide)

/-- Claim C8 (amended): every attempt of a chain creates and stores a fresh
`AbortController`, replacing the previous one: the controller identities of
one chain are nonempty and strictly increasing (hence pairwise distinct),
so a retry never reuses the handle of the attempt it follows. -/
theorem spec_C8 : ∀ (TData : Type) (retries : Nat) (transport : TData → Nat → AttemptOutcome)
    (data : TData) (attempt nextId : Nat),
    (makeRequest retries transport data attempt nextId).2 ≠ [] ∧
    List.Chain' (fun a b => a < b) (makeRequest retries transport data attempt nextId).2 :=
  fun _ retries transport data attempt nextId =>
    ⟨makeRequest_ids_ne_nil retries transport data attempt nextId,
     makeRequestGo_ids_chain retries transport data _ attempt nextId⟩

/-- Fixture: remote 500 twice, then success. -/
def fiveHundredTwiceTransport : Unit → Nat → AttemptOutcome := fun _ n =>
  if n < 2 then .httpError 500 (.jsonOk { message := some "Server error", code := none, errors := none })
  else .ok "sent"

/-- Fixture: remote 400 on every attempt. -/
def fourHundredTransport : Unit → Nat → AttemptOutcome := fun _ _ =>
  .httpError 400 (.jsonOk { message := some "Invalid request", code := none, errors := none })

/-- The error the 400 scenario settles with. -/
def invalidRequestError : JsError :=
  { name := "", message := "Invalid request", code := none, status := some 400, errors := none }

/-- Fixture: maxRetries = 3, no validator, no transform. -/
def cfgRetries3 : HookConfig Unit := { retries := 3, validate := none, transformData := none }

/-- Claim C1: for every submission whose network attempt yields a remote
non-2xx response (of a nonzero HTTP status), a retry is performed if and only
if the status is at least 500 and the current attempt index is below the
configured retries budget; consequently, with maxRetries = 3, a transport
failing twice with status 500 and then succeeding is invoked exactly 3 times
and the submission resolves with the parsed body, while a transport
consistently returning status 400 is invoked exactly once and the submission
rejects with an error carrying status 400. -/
theorem spec_C1 :
    (∀ (TData : Type) (retries : Nat) (transport : TData → Nat → AttemptOutcome) (data : TData)
      (attempt nextId status : Nat) (body : RespBody),
      transport data attempt = .httpError status body → status ≠ 0 →
      (1 < (makeRequest retries transport data attempt nextId).2.length ↔
        (500 ≤ status ∧ attempt < retries))) ∧
    sendEmail cfgRetries3 fiveHundredTwiceTransport () =
      { states := [{ loading := true, error := none, data := none, success := false },
          { loading := false, error := none, data := some "sent", success := true }]
        result := .ok "sent"
        onSuccessCalls := ["sent"]
        onErrorCalls := []
        controllerIds := [0, 1, 2] } ∧
    sendEmail cfgRetries3 fourHundredTransport () =
      { states := [{ loading := true, error := none, data := none, success := false },
          { loading := false, error := some invalidRequestError, data := none, success := false }]
        result := .error invalidRequestError
        onSuccessCalls := []
        onErrorCalls := [invalidRequestError]
        controllerIds := [0] } := by
  refine ⟨?_, by rfl, by rfl⟩
  intro TData retries transport data attempt nextId status body h hstatus
  rw [makeRequest_eq, h]
  dsimp only
  have hretry : shouldRetryHttp retries attempt status (parseErrorResponse status body) =
      (decide (500 ≤ status) && decide (attempt < retries)) := by
    simp [shouldRetryHttp, parseErrorResponse, truthyStatus, hstatus]
  rw [hretry]
  by_cases h5 : 500 ≤ status <;> by_cases hr : attempt < retries <;>
    simp [h5, hr]
  exact List.length_pos.mpr (makeRequest_ids_ne_nil retries transport data (attempt + 1) (nextId + 1))

/-- Witness for C1: the general retry iff, instantiated at the 500-then-ok
transport with budget 3 at attempt 0, yields more than one invocation. -/
theorem spec_C1_witness :
    1 < (makeRequest 3 fiveHundredTwiceTransport () 0 0).2.length :=
  (spec_C1.1 Unit 3 fiveHundredTwiceTransport () 0 0 500
      (.jsonOk { message := some "Server error", code := none, errors := none })
      rfl (by decide)).mpr (by decide)



/-- The `VALIDATION_ERROR` object synthesized by `sendEmail`
(`useContactForm.ts` lines 159–163) for a failed validation. -/
def validationError (errs : Option (List (String × List String))) : JsError :=
  { name := "", message := "Validation failed", code := some "VALIDATION_ERROR"
    status := none, errors := errs }

/-- Claim C2: whenever the configured validator rejects the data, `sendEmail`
makes no network attempt (no controller is ever allocated), publishes exactly
the failed state carrying the `VALIDATION_ERROR`-coded error with the
returned field errors, invokes `onError` with that error, and rejects with
it. -/
theorem spec_C2 : ∀ (TData : Type) (cfg : HookConfig TData)
    (transport : TData → Nat → AttemptOutcome) (data : TData)
    (v : TData → ValidationResult) (errs : Option (List (String × List String))),
    cfg.validate = some v → v data = { valid := false, errors := errs } →
    sendEmail cfg transport data =
      { states := [failedState (validationError errs)]
        result := .error (validationError errs)
        onSuccessCalls := []
        onErrorCalls := [validationError errs]
        controllerIds := [] } := by
  intro TData cfg transport data v errs hv hvd
  simp [sendEmail, hv, hvd, validationError, failedState]

/-- Fixture: a config whose validator always fails on the name field. -/
def cfgValFail : HookConfig Unit :=
  { retries := 3
    validate := some (fun _ => { valid := false, errors := some [("name", ["Name is required"])] })
    transformData := none }

/-- Witness for C2 at a concrete always-failing validator. -/
theorem spec_C2_witness :
    sendEmail cfgValFail fourHundredTransport () =
      { states := [failedState (validationError (some [("name", ["Name is required"])]))]
        result := .error (validationError (some [("name", ["Name is required"])]))
        onSuccessCalls := []
        onErrorCalls := [validationError (some [("name", ["Name is required"])])]
        controllerIds := [] } :=
  spec_C2 Unit cfgValFail fourHundredTransport ()
    (fun _ => { valid := false, errors := some [("name", ["Name is required"])] })
    (some [("name", ["Name is required"])]) rfl rfl

/-- The three possible published-state sequences of one `sendEmail` call:
validation failure, network success, network failure. -/
theorem sendEmail_states_cases {TData : Type} (cfg : HookConfig TData)
    (transport : TData → Nat → AttemptOutcome) (data : TData) :
    (∃ e : JsError, (sendEmail cfg transport data).states = [failedState e]) ∨
    (∃ d : String, (sendEmail cfg transport data).states = [loadingState, successState d]) ∨
    (∃ e : JsError, (sendEmail cfg transport data).states = [loadingState, failedState e]) := by
  have hcore :
      (∃ d : String, (sendEmailCore cfg transport data).states = [loadingState, successState d]) ∨
      (∃ e : JsError, (sendEmailCore cfg transport data).states = [loadingState, failedState e]) := by
    unfold sendEmailCore
    rcases hmr : makeRequest cfg.retries transport (applyTransform cfg data) 0 0 with ⟨r, ids⟩
    cases r with
    | ok d =>
      left
      exact ⟨d, by simp only [hmr]⟩
    | error e =>
      right
      exact ⟨e, by simp only [hmr]⟩
  unfold sendEmail
  cases hv : cfg.validate with
  | none =>
    rcases hcore with ⟨d, hd⟩ | ⟨e, he⟩
    · right; left; exact ⟨d, hd⟩
    · right; right; exact ⟨e, he⟩
  | some v =>
    by_cases hval : (v data).valid
    · simp only [hval, Bool.not_true, Bool.false_eq_true, if_false]
      rcases hcore with ⟨d, hd⟩ | ⟨e, he⟩
      · right; left; exact ⟨d, hd⟩
      · right; right; exact ⟨e, he⟩
    · left
      refine ⟨validationError (v data).errors, ?_⟩
      simp only [Bool.not_eq_true] at hval
      simp [hval, validationError]

/-- State invariant of the published `ContactFormState`s. -/
def stateInv (s : ContactFormState) : Prop :=
  ¬ (s.error ≠ none ∧ s.success = true) ∧
  (s.loading = true → (s.error = none ∧ s.success = false))

theorem stateInv_loading : stateInv loadingState := by
  simp [stateInv, loadingState]

theorem stateInv_success (d : String) : stateInv (successState d) := by
  simp [stateInv, successState]

theorem stateInv_failed (e : JsError) : stateInv (failedState e) := by
  simp [stateInv, failedState]

/-- Claim C5: every state the hook publishes (the initial state, the reset
state, and each state of any `sendEmail` call) never combines a non-null
error with success, and has no error and no success while loading; and every
settling `sendEmail` call's last published state has `loading = false`. -/
theorem spec_C5 : ∀ (TData : Type) (cfg : HookConfig TData)
    (transport : TData → Nat → AttemptOutcome) (data : TData),
    stateInv initialState ∧ stateInv resetState ∧
    (∀ s ∈ (sendEmail cfg transport data).states, stateInv s) ∧
    (∃ last, (sendEmail cfg transport data).states.getLast? = some last ∧
      last.loading = false) := by
  intro TData cfg transport data
  refine ⟨by simp [stateInv, initialState], by simp [stateInv, resetState], ?_, ?_⟩ <;>
    rcases sendEmail_states_cases cfg transport data with ⟨e, h⟩ | ⟨d, h⟩ | ⟨e, h⟩ <;>
      rw [h]
  · intro s hs
    rw [List.mem_singleton] at hs
    rw [hs]
    exact stateInv_failed e
  · intro s hs
    rcases List.mem_cons.mp hs with h1 | h1
    · rw [h1]; exact stateInv_loading
    · rw [List.mem_singleton.mp h1]; exact stateInv_success d
  · intro s hs
    rcases List.mem_cons.mp hs with h1 | h1
    · rw [h1]; exact stateInv_loading
    · rw [List.mem_singleton.mp h1]; exact stateInv_failed e
  · exact ⟨failedState e, rfl, rfl⟩
  · exact ⟨successState d, rfl, rfl⟩
  · exact ⟨failedState e, rfl, rfl⟩

/-- Witness for C5's membership clause at the loading state of the
500-then-ok scenario. -/
theorem spec_C5_witness : stateInv loadingState :=
  (spec_C5 Unit cfgRetries3 fiveHundredTwiceTransport ()).2.2.1 loadingState
    (by rw [show sendEmail cfgRetries3 fiveHundredTwiceTransport () =
        { states := [loadingState, successState "sent"]
          result := .ok "sent"
          onSuccessCalls := ["sent"]
          onErrorCalls := []
          controllerIds := [0, 1, 2] } from rfl]; simp)



/-- The normalized cancellation error: `createNetworkError(new Error('Request
cancelled'))`, i.e. `{message: 'Request cancelled', code: 'NETWORK_ERROR'}`. -/
def cancelledError : JsError :=
  createNetworkError
    { name := "Error", message := "Request cancelled", code := none, status := none, errors := none }

/-- An aborted attempt settles the chain at once with `cancelledError`,
whatever the remaining budget. -/
theorem makeRequest_abort {TData : Type} (retries : Nat)
    (transport : TData → Nat → AttemptOutcome) (data : TData) (attempt nextId : Nat)
    (e : JsError) (h : transport data attempt = .thrown e) (habort : e.name = "AbortError") :
    makeRequest retries transport data attempt nextId = (.error cancelledError, [nextId]) := by
  rw [makeRequest_eq, h]
  dsimp only
  have hr : shouldRetryThrown retries attempt e = false := by
    simp [shouldRetryThrown, habort]
  rw [hr]
  simp only [Bool.false_eq_true, if_false]
  simp [catchNoRetry, habort, cancelledError]

/-- Claim C6: an attempt rejected with an abort-kind error never retries,
whatever the remaining budget: the chain settles at once with the normalized
error of message "Request cancelled" and code `NETWORK_ERROR`, the published
state is the failed state carrying it, `onError` receives it, and the
submission rejects with it. -/
theorem spec_C6 :
    cancelledError.message = "Request cancelled" ∧
    cancelledError.code = some "NETWORK_ERROR" ∧
    (∀ (TData : Type) (retries : Nat) (transport : TData → Nat → AttemptOutcome)
      (data : TData) (attempt nextId : Nat) (e : JsError),
      transport data attempt = .thrown e → e.name = "AbortError" →
      makeRequest retries transport data attempt nextId = (.error cancelledError, [nextId])) ∧
    (∀ (TData : Type) (cfg : HookConfig TData) (transport : TData → Nat → AttemptOutcome)
      (data : TData) (e : JsError),
      cfg.validate = none → transport (applyTransform cfg data) 0 = .thrown e →
      e.name = "AbortError" →
      sendEmail cfg transport data =
        { states := [loadingState, failedState cancelledError]
          result := .error cancelledError
          onSuccessCalls := []
          onErrorCalls := [cancelledError]
          controllerIds := [0] }) := by
  refine ⟨rfl, rfl, ?_, ?_⟩
  · intro TData retries transport data attempt nextId e h habort
    exact makeRequest_abort retries transport data attempt nextId e h habort
  · intro TData cfg transport data e hv h habort
    have hm := makeRequest_abort cfg.retries transport (applyTransform cfg data) 0 0 e h habort
    simp only [sendEmail, hv]
    unfold sendEmailCore
    simp only [hm]

/-- Fixture: the abort rejection (`error.name === 'AbortError'`). -/
def abortError : JsError :=
  { name := "AbortError", message := "The operation was aborted", code := none
    status := none, errors := none }

/-- Fixture: a transport whose every attempt is aborted. -/
def abortTransport : Unit → Nat → AttemptOutcome := fun _ _ => .thrown abortError

/-- Witness for C6 at a concrete always-aborting transport with budget 3. -/
theorem spec_C6_witness :
    sendEmail cfgRetries3 abortTransport () =
      { states := [loadingState, failedState cancelledError]
        result := .error cancelledError
        onSuccessCalls := []
        onErrorCalls := [cancelledError]
        controllerIds := [0] } :=
  spec_C6.2.2.2 Unit cfgRetries3 abortTransport () abortError rfl rfl rfl



/-- A transport that throws the same non-abort, statusless error on every
attempt makes the chain consume the whole budget (`retries + 1` attempts)
and settle with `catchNoRetry e`. -/
theorem makeRequestGo_const_thrown {TData : Type} (retries : Nat)
    (transport : TData → Nat → AttemptOutcome) (data : TData) (e : JsError)
    (ht : ∀ n, transport data n = .thrown e) (hn : e.name ≠ "AbortError")
    (hs : e.status = none) :
    ∀ (fuel attempt nextId : Nat), retries - attempt = fuel →
      makeRequestGo retries transport data fuel attempt nextId =
        (.error (catchNoRetry e), List.range' nextId (fuel + 1)) := by
  intro fuel
  induction fuel with
  | zero =>
    intro attempt nextId hfa
    simp only [makeRequestGo]
    rw [ht attempt]
    rfl
  | succ fuel ih =>
    intro attempt nextId hfa
    have hlt : attempt < retries := by omega
    simp only [makeRequestGo]
    rw [ht attempt]
    have hretry : shouldRetryThrown retries attempt e = true := by
      simp [shouldRetryThrown, hs, truthyStatus, hlt, bne_iff_ne, hn]
    simp only [hretry, if_true]
    rw [ih (attempt + 1) (nextId + 1) (by omega)]
    rfl

/-- Fixture: the rejection value of `createTimeoutPromise`
(`utils.ts` lines 114–120): `new Error('Request timeout')`. -/
def timeoutError : JsError :=
  { name := "Error", message := "Request timeout", code := none, status := none, errors := none }

/-- Fixture: a transport that never settles, so every raced attempt rejects
with the timeout error. -/
def timeoutTransport : Unit → Nat → AttemptOutcome := fun _ _ => .thrown timeoutError

/-- Fixture: maxRetries = 0 (the default), no validator, no transform. -/
def cfgRetries0 : HookConfig Unit := { retries := 0, validate := none, transformData := none }

/-- Counterexample to C3 as stated: with a never-settling transport
(every raced attempt rejects with the timeout error) and the retries
default 0, `sendEmail` rejects with the timeout error itself, whose `code`
is absent — not `NETWORK_ERROR` as the claim requires. -/
theorem spec_C3_counterexample :
    (sendEmail cfgRetries0 timeoutTransport ()).result = .error timeoutError ∧
    timeoutError.message = "Request timeout" ∧
    timeoutError.code ≠ some "NETWORK_ERROR" := by
  refine ⟨rfl, rfl, by decide⟩

/-- Claim C3 (amended): for a transport whose every attempt rejects with the
same non-abort, statusless thrown error, the chain consumes the whole budget
(`retries + 1` attempts) and rejects with an error that preserves the thrown
error's message when it is nonempty and otherwise falls back to
"Network error occurred"; the `NETWORK_ERROR` code is attached only in the
empty-message fallback case — an error with a nonempty message (such as the
timeout error "Request timeout") is rethrown unchanged, keeping its own
(absent) code. -/
theorem spec_C3 :
    (∀ (TData : Type) (retries : Nat) (transport : TData → Nat → AttemptOutcome)
      (data : TData) (e : JsError),
      (∀ n, transport data n = .thrown e) → e.name ≠ "AbortError" → e.status = none →
      ∃ e' : JsError,
        makeRequest retries transport data 0 0 = (.error e', List.range' 0 (retries + 1)) ∧
        e'.message = (if e.message = "" then "Network error occurred" else e.message) ∧
        e'.code = (if e.message = "" then some "NETWORK_ERROR" else e.code)) ∧
    (sendEmail cfgRetries0 timeoutTransport ()).result = .error timeoutError ∧
    timeoutError.code = none ∧
    timeoutError.message = "Request timeout" := by
  refine ⟨?_, rfl, rfl, rfl⟩
  intro TData retries transport data e ht hn hs
  refine ⟨catchNoRetry e, ?_, ?_, ?_⟩
  · exact makeRequestGo_const_thrown retries transport data e ht hn hs retries 0 0 rfl
  · by_cases hm : e.message = "" <;>
      simp [catchNoRetry, hn, hm, createNetworkError]
  · by_cases hm : e.message = "" <;>
      simp [catchNoRetry, hn, hm, createNetworkError]

/-- Fixture: a constantly failing plain network error. -/
def networkFailureError : JsError :=
  { name := "Error", message := "Network failure", code := none, status := none, errors := none }

/-- Fixture: every attempt rejects with `networkFailureError`. -/
def networkFailureTransport : Unit → Nat → AttemptOutcome := fun _ _ => .thrown networkFailureError

/-- Witness for C3 at a concrete constantly-failing network transport with
budget 2. -/
theorem spec_C3_witness :
    ∃ e' : JsError,
      makeRequest 2 networkFailureTransport () 0 0 = (.error e', List.range' 0 3) ∧
      e'.message = (if networkFailureError.message = "" then "Network error occurred"
        else networkFailureError.message) ∧
      e'.code = (if networkFailureError.message = "" then some "NETWORK_ERROR"
        else networkFailureError.code) :=
  spec_C3.1 Unit 2 networkFailureTransport () networkFailureError (fun _ => rfl)
    (by decide) rfl


set_option maxRecDepth 40000

/-- Membership in the output of a single-character global replace comes from
the replacement text or from a kept character distinct from the pattern. -/
theorem mem_jsReplaceChar (a c : Char) (rep s : String)
    (h : a ∈ (jsReplaceChar c rep s).data) :
    a ∈ rep.data ∨ (a ∈ s.data ∧ a ≠ c) := by
  unfold jsReplaceChar at h
  rcases List.mem_flatMap.mp h with ⟨b, hb, hab⟩
  by_cases hbc : b = c
  · rw [if_pos hbc] at hab
    exact Or.inl hab
  · rw [if_neg hbc] at hab
    rw [List.mem_singleton] at hab
    exact Or.inr ⟨hab ▸ hb, hab ▸ hbc⟩

/-- No character of an `escapeHtml` output can open markup or leave an
attribute: `<`, `>`, `"` and `'` never survive the escaping. -/
theorem escapeHtml_no_markup (s : String) (a : Char) (h : a ∈ (escapeHtml s).data) :
    a ≠ '<' ∧ a ≠ '>' ∧ a ≠ '"' ∧ a ≠ '\'' := by
  unfold escapeHtml at h
  rcases mem_jsReplaceChar a _ _ _ h with h5 | ⟨h, hne5⟩
  · simp at h5
    rcases h5 with rfl | rfl | rfl | rfl | rfl <;> decide
  rcases mem_jsReplaceChar a _ _ _ h with h4 | ⟨h, hne4⟩
  · simp at h4
    rcases h4 with rfl | rfl | rfl | rfl | rfl | rfl <;> decide
  rcases mem_jsReplaceChar a _ _ _ h with h3 | ⟨h, hne3⟩
  · simp at h3
    rcases h3 with rfl | rfl | rfl | rfl <;> decide
  rcases mem_jsReplaceChar a _ _ _ h with h2 | ⟨h, hne2⟩
  · simp at h2
    rcases h2 with rfl | rfl | rfl | rfl <;> decide
  exact ⟨hne2, hne3, hne4, hne5⟩

/-- Fixture: the markup-carrying submission of the spec's escaping test. -/
def xssData : TemplateData :=
  { name := some "<b>x</b>", email := some "a@b.com"
    message := some "<script>alert(1)</script>", subject := none, phone := none }

/-- Claim C4: caller-supplied data fields and the footer text are
HTML-escaped before interpolation — no `<`, `>`, `"` or `'` survives
`escapeHtml` (ampersand, less-than, greater-than, double-quote and
single-quote each become their entities), and concretely the rendering of
`{name: '<b>x</b>', email: 'a@b.com', message: '<script>alert(1)</script>'}`
contains the escaped sequence `&lt;b&gt;x&lt;/b&gt;` and no literal
`<script>` substring. -/
theorem spec_C4 :
    (∀ (s : String) (a : Char), a ∈ (escapeHtml s).data →
      a ≠ '<' ∧ a ≠ '>' ∧ a ≠ '"' ∧ a ≠ '\'') ∧
    escapeHtml "<b>x</b>" = "&lt;b&gt;x&lt;/b&gt;" ∧
    hasSubstr "&lt;b&gt;x&lt;/b&gt;" (renderHtmlTemplate xssData defaultTemplateOptions) = true ∧
    hasSubstr "<script>" (renderHtmlTemplate xssData defaultTemplateOptions) = false := by
  refine ⟨escapeHtml_no_markup, by decide, by decide, by decide⟩

/-- Witness for C4's universal part at a concrete escaped character. -/
theorem spec_C4_witness :
    'b' ∈ (escapeHtml "<b>x</b>").data ∧
    'b' ≠ '<' ∧ 'b' ≠ '>' ∧ 'b' ≠ '"' ∧ 'b' ≠ '\'' :=
  ⟨by decide, spec_C4.1 "<b>x</b>" 'b' (by decide)⟩

/-- Fixture: rendering options carrying raw markup characters. -/
def markupOpts : TemplateOptions :=
  { theme := none, brandColor := some "b\"<w", logoUrl := some "a\"<z", footerText := none }

/-- Claim C10: the rendering options `logoUrl` and `brandColor` are
interpolated without HTML-escaping: option values carrying `"` and `<`
appear verbatim inside the `img src` attribute and the heading `color:`
position, their escaped forms are absent, and escaping would have changed
them — only the data fields and footer text pass through the escaper. -/
theorem spec_C10 :
    hasSubstr "src=\"a\"<z\"" (renderHtmlTemplate xssData markupOpts) = true ∧
    hasSubstr "color:b\"<w;" (renderHtmlTemplate xssData markupOpts) = true ∧
    hasSubstr (escapeHtml "a\"<z") (renderHtmlTemplate xssData markupOpts) = false ∧
    hasSubstr (escapeHtml "b\"<w") (renderHtmlTemplate xssData markupOpts) = false ∧
    escapeHtml "a\"<z" ≠ "a\"<z" ∧
    escapeHtml "b\"<w" ≠ "b\"<w" := by
  refine ⟨by decide, by decide, by decide, by decide, by decide, by decide⟩



/-- Claim C9: the backoff computation returns `base * 2 ^ attempt` exactly:
`base`, `2*base`, `4*base`, `8*base`, `1024*base` for attempts 0, 1, 2, 3,
10, and `base / 2` for attempt -1, with no clamping. -/
theorem spec_C9 : ∀ base : ℚ,
    getExponentialBackoff 0 base = base ∧
    getExponentialBackoff 1 base = 2 * base ∧
    getExponentialBackoff 2 base = 4 * base ∧
    getExponentialBackoff 3 base = 8 * base ∧
    getExponentialBackoff 10 base = 1024 * base ∧
    getExponentialBackoff (-1) base = base / 2 := by
  intro base
  refine ⟨?_, ?_, ?_, ?_, ?_, ?_⟩ <;>
    · unfold getExponentialBackoff
      norm_num
      try ring

/-- Claim C7: the built-in validator reports all violations simultaneously,
one message list per invalid field in field order name, email, message;
absent or whitespace-only name/message yield "... is required"; an empty
email yields "Email is required" while a nonempty email failing the
single-@, dot-containing, no-whitespace pattern yields "Email is invalid"
(and `user.name@example.co.uk` is accepted); with no violations the result
is valid with no errors mapping — and validity is equivalent to the absence
of the errors mapping. -/
theorem spec_C7 :
    validateContactForm ⟨some " ", some "", none⟩ =
      ⟨false, some [("name", ["Name is required"]), ("email", ["Email is required"]),
        ("message", ["Message is required"])]⟩ ∧
    validateContactForm ⟨none, some "a b@c.com", some "hi"⟩ =
      ⟨false, some [("name", ["Name is required"]), ("email", ["Email is invalid"])]⟩ ∧
    validateContactForm ⟨some "A", some "user.name@example.co.uk", some "hi"⟩ = ⟨true, none⟩ ∧
    isValidEmail "a@b" = false ∧ isValidEmail "ab.c" = false ∧ isValidEmail "@b.c" = false ∧
    isValidEmail "a@.c" = false ∧ isValidEmail "a@b." = false ∧ isValidEmail "a@b c.d" = false ∧
    (∀ d : ContactFormInput,
      ((validateContactForm d).valid = true ↔ (validateContactForm d).errors = none)) ∧
    (∀ d : ContactFormInput, (validateContactForm d).errors = none ∨
      ∃ l, (validateContactForm d).errors = some l ∧ l ≠ [] ∧
        List.Sublist (l.map Prod.fst) ["name", "email", "message"]) := by
  refine ⟨by decide, by decide, by decide, by decide, by decide, by decide, by decide,
    by decide, by decide, ?_, ?_⟩
  · intro d
    unfold validateContactForm
    by_cases h1 : requiredMissing d.name <;>
      by_cases h2 : requiredMissing d.email <;>
        by_cases h3 : requiredMissing d.message <;>
          by_cases h4 : isValidEmail (d.email.getD "") <;>
            simp [h1, h2, h3, h4]
  · intro d
    unfold validateContactForm
    by_cases h1 : requiredMissing d.name <;>
      by_cases h2 : requiredMissing d.email <;>
        by_cases h3 : requiredMissing d.message <;>
          by_cases h4 : isValidEmail (d.email.getD "") <;>
            simp [h1, h2, h3, h4]


end UseContactForm
